import Mathlib

/-!
Shallow embedding of `src/fund_limit_fetcher.py`, the fund
subscription-limit fetcher: a provider table is filtered by fund code
(with a substring fallback), four fields are extracted defensively, and a
short display string is produced.  The external provider call is
modelled by an explicit `Option DataFrame` argument; Python exceptions
caught by the `except` branches become `none` results.
-/

namespace FundLimit

/-- Cell values of the provider table: a string or a number.  Amounts are
modelled as rationals; the integer-valued amounts in scope are exact. -/
inductive CellValue
  | vStr (s : String)
  | vNum (q : ℚ)
deriving DecidableEq

/-- A table row: association list from column label to cell value. -/
abbrev Row := List (String × CellValue)

/-- The provider table (pandas DataFrame): column labels plus rows. -/
structure DataFrame where
  columns : List String
  rows : List Row
deriving DecidableEq

/-- Value of column `col` in a row (pandas cell access by label). -/
def getCell (r : Row) (col : String) : Option CellValue :=
  (r.find? (fun p => p.1 == col)).map (fun p => p.2)

/-- Whether `pat` occurs at the start of `s` (character lists). -/
def charsStart : List Char → List Char → Bool
  | [], _ => true
  | _ :: _, [] => false
  | a :: as, b :: bs => a == b && charsStart as bs

/-- Whether `pat` occurs anywhere inside `s`: Python substring
containment, which is what pandas `str.contains` computes on the
digit-only patterns in scope (digits are regex-literal). -/
def charsSub (pat : List Char) : List Char → Bool
  | [] => charsStart pat []
  | b :: bs => charsStart pat (b :: bs) || charsSub pat bs

/-- Python truthiness of a cell value: empty string and zero are falsy. -/
def pyTruthy : CellValue → Bool
  | .vStr s => !(s == "")
  | .vNum _q => !(_q == 0)

/-- Split a character list on the dot character. -/
def splitDot (cs : List Char) : List (List Char) :=
  cs.foldr (fun c acc =>
    if c == '.' then [] :: acc
    else
      match acc with
      | h :: t => (c :: h) :: t
      | [] => [[c]]) [[]]

/-- Numeric value of a digit list. -/
def digitsVal (cs : List Char) : ℕ :=
  cs.foldl (fun n c => 10 * n + (c.toNat - 48)) 0

/-- Python `float()` on a string, modelled on unsigned decimal literals
("123", "12.5", "3.", ".5"); other strings raise ValueError, hence
`none`. -/
def pyFloatOfStr (s : String) : Option ℚ :=
  match splitDot s.data with
  | [a] =>
    if a.isEmpty then none
    else if a.all Char.isDigit then some (digitsVal a : ℚ) else none
  | [a, b] =>
    if a.isEmpty && b.isEmpty then none
    else if a.all Char.isDigit && b.all Char.isDigit then
      some ((digitsVal a : ℚ) + (digitsVal b : ℚ) / (10 : ℚ) ^ b.length)
    else none
  | _ => none

/-- Python `float()` on a cell value: numbers pass through, strings are
parsed. -/
def pyFloat : CellValue → Option ℚ
  | .vNum q => some q
  | .vStr s => pyFloatOfStr s

/-- Python `str()` on a cell value.  The rendering of a numeric cell is
exact for integral values (Python prints the `2.0` style); the fields it
is applied to hold strings in the provider schema. -/
def pyStr : CellValue → String
  | .vStr s => s
  | .vNum q =>
    if q.den == 1 then toString q.num ++ ".0"
    else toString q.num ++ "/" ++ toString q.den

/-- Exact-match predicate of source line 63: the row cell 基金代码 equals
the query string (pandas `==` on the column; a non-string or missing cell
compares unequal). -/
def exactMatch (code : String) (r : Row) : Bool :=
  match getCell r "基金代码" with
  | some (.vStr s) => s == code
  | _ => false

/-- Containment predicate of source line 70: the row cell 基金代码
contains `pat` as a substring (pandas `str.contains` with `na=False`: a
non-string or missing cell gives false). -/
def subMatch (pat : String) (r : Row) : Bool :=
  match getCell r "基金代码" with
  | some (.vStr s) => charsSub pat.data s.data
  | _ => false

/-- Numeric part used by the fallback, source line 68:
`fund_code[2:] if len(fund_code) > 2 else fund_code` (Python slices
strings by characters). -/
def numericPart (code : String) : String :=
  if code.data.length > 2 then String.mk (code.data.drop 2) else code

/-- Row located for a code, source lines 62-77: exact filter first; when
it is empty, the containment filter on the numeric part; then the first
row (`iloc[0]`) of whichever filter result is in force, if any. -/
def lookupRow (df : DataFrame) (code : String) : Option Row :=
  let fund_info := df.rows.filter (exactMatch code)
  let fund_info2 :=
    if fund_info.isEmpty then df.rows.filter (subMatch (numericPart code))
    else fund_info
  fund_info2.head?

/-- The LimitInfo dictionary built at source lines 88-93. -/
structure LimitInfo where
  limit_amount : ℚ
  purchase_status : String
  fund_type : String
  fund_name : String
deriving DecidableEq

/-- Defensive field read of source lines 83-86:
`fund_row.get(col, default) if col in columns else default` — both the
missing-key case and the failed guard give the default. -/
def getField (r : Row) (col : String) (dflt : CellValue) : CellValue :=
  (getCell r col).getD dflt

/-- Extraction of the four fields from the matched row with coercions,
source lines 80-93.  `float(limit_amount)` on a truthy non-numeric
string raises ValueError, which lands in the `except` branch of the
caller, hence `none`; the three `str()` coercions cannot raise. -/
def extractFromRow (r : Row) : Option LimitInfo :=
  let limit_amount := getField r "日累计限定金额" (.vNum 0)
  let purchase_status := getField r "申购状态" (.vStr "")
  let fund_type := getField r "基金类型" (.vStr "")
  let fund_name := getField r "基金简称" (.vStr "")
  match (if pyTruthy limit_amount then pyFloat limit_amount else some 0) with
  | none => none
  | some la =>
    some { limit_amount := la
         , purchase_status :=
             if pyTruthy purchase_status then pyStr purchase_status else ""
         , fund_type := if pyTruthy fund_type then pyStr fund_type else ""
         , fund_name := if pyTruthy fund_name then pyStr fund_name else "" }

/-- Source lines 17-31: the external provider call; the table on success,
`none` when the call raised and the `except` branch returned None. -/
def get_fund_purchase_data (provider : Option DataFrame) : Option DataFrame :=
  provider

/-- Source lines 33-96: fetch the table, check the required column,
locate the row, extract the fields; `none` on every failure. -/
def extract_fund_limit_info (provider : Option DataFrame)
    (fund_code : String) : Option LimitInfo :=
  match get_fund_purchase_data provider with
  | none => none
  | some fund_data =>
    if fund_data.columns.contains "基金代码" then
      match lookupRow fund_data fund_code with
      | none => none
      | some fund_row => extractFromRow fund_row
    else none

/-- Floor of a nonnegative rational via natural division; the only
arguments formatted below are positive amounts. -/
def ratFloorNN (q : ℚ) : ℤ := (q.num.toNat / q.den : ℕ)

/-- The rounding of the `%.0f` format: round half to even (the IEEE
default used by Python printf-style formatting).  For the integer-valued
amounts in scope the tie cases are exactly representable, so the
rational model is exact. -/
def roundHalfEven (q : ℚ) : ℤ :=
  if q - ratFloorNN q < 1/2 then ratFloorNN q
  else if (1 : ℚ)/2 < q - ratFloorNN q then ratFloorNN q + 1
  else if ratFloorNN q % 2 == 0 then ratFloorNN q else ratFloorNN q + 1

/-- The f-string piece `{x:.0f}`. -/
def fmtF0 (q : ℚ) : String := toString (roundHalfEven q)

/-- Source lines 98-131: format the limit information as display text.
Nothing in the `try` body after `extract_fund_limit_info` can raise, so
the only `none` comes from a failed extraction. -/
def fetch_fund_limit_info (provider : Option DataFrame)
    (fund_code : String) : Option String :=
  match extract_fund_limit_info provider fund_code with
  | none => none
  | some limit_info =>
    if limit_info.purchase_status = "暂停申购" then some "暂停"
    else if limit_info.limit_amount > 0 then
      if limit_info.limit_amount ≥ 10000 then
        some ("限" ++ fmtF0 (limit_info.limit_amount / 10000) ++ "万")
      else some ("限" ++ fmtF0 limit_info.limit_amount)
    else some ""

/-! ## Derived notions used to state the claims -/

/-- The lookup variant that never strips a prefix: the fallback pattern is
the full original code.  Stated by the spec for codes of length at most
two; compared with `lookupRow` below. -/
def lookupRowNoStrip (df : DataFrame) (code : String) : Option Row :=
  let fund_info := df.rows.filter (exactMatch code)
  let fund_info2 :=
    if fund_info.isEmpty then df.rows.filter (subMatch code)
    else fund_info
  fund_info2.head?

/-- The limit-amount field as the spec words it: missing column or falsy
value gives 0, a present truthy value is float-coerced. -/
def limitFieldSpec (r : Row) : ℚ :=
  match getCell r "日累计限定金额" with
  | none => 0
  | some v => if pyTruthy v then (pyFloat v).getD 0 else 0

/-- A string field as the spec words it: missing column or falsy value
gives the empty string, a present truthy value is str-coerced. -/
def strFieldSpec (r : Row) (col : String) : String :=
  match getCell r col with
  | none => ""
  | some v => if pyTruthy v then pyStr v else ""

/-! ## Concrete tables used as witnesses -/

/-- Row of the spec example: code 160119 with purchase status 暂停申购. -/
def rowPause : Row :=
  [("基金代码", .vStr "160119"), ("基金简称", .vStr "南方五百"),
   ("基金类型", .vStr "QDII"), ("申购状态", .vStr "暂停申购"),
   ("日累计限定金额", .vNum 1000)]

def providerCols : List String :=
  ["基金代码", "基金简称", "基金类型", "申购状态", "日累计限定金额"]

def dfPause : DataFrame := ⟨providerCols, [rowPause]⟩

/-- Row with an amount of `la` and open purchase status. -/
def rowAmount (code : String) (la : ℚ) : Row :=
  [("基金代码", .vStr code), ("基金简称", .vStr "测试基金"),
   ("基金类型", .vStr "LOF"), ("申购状态", .vStr "开放申购"),
   ("日累计限定金额", .vNum la)]

def dfAmount (code : String) (la : ℚ) : DataFrame :=
  ⟨providerCols, [rowAmount code la]⟩

/-- Table with rows but none matching code 999999 even by substring. -/
def dfNoMatch : DataFrame := ⟨providerCols, [rowPause]⟩

/-- Row whose limit-amount cell holds a non-numeric string, so that
the float() coercion raises. -/
def rowBadLimit : Row :=
  [("基金代码", .vStr "200300"), ("申购状态", .vStr "开放申购"),
   ("日累计限定金额", .vStr "不限额")]

def dfBadLimit : DataFrame := ⟨providerCols, [rowBadLimit]⟩

/-- Row carrying only the code: every other column is missing, so each
field falls back to its default. -/
def rowBare : Row := [("基金代码", .vStr "300400")]

def dfBare : DataFrame := ⟨["基金代码"], [rowBare]⟩

/-- Two-row table for the fallback mismatch: the query XY123 strips to
123, which occurs in the middle of 512345 (first row) and as a suffix of
99123 (second row); the first row wins. -/
def rowMid : Row :=
  [("基金代码", .vStr "512345"), ("基金简称", .vStr "中间匹配"),
   ("申购状态", .vStr "开放申购"), ("日累计限定金额", .vNum 777)]

def rowSuffix : Row :=
  [("基金代码", .vStr "99123"), ("基金简称", .vStr "后缀匹配"),
   ("申购状态", .vStr "开放申购"), ("日累计限定金额", .vNum 888)]

def dfTwoMatches : DataFrame := ⟨providerCols, [rowMid, rowSuffix]⟩

/-! ## Helper lemmas -/

theorem natDivFloorAux (n d : ℕ) (hd : 0 < d) :
    ((n / d : ℕ) : ℚ) ≤ (n : ℚ) / (d : ℚ)
    ∧ (n : ℚ) / (d : ℚ) < ((n / d : ℕ) : ℚ) + 1 := by
  have hdq : (0:ℚ) < (d:ℚ) := by exact_mod_cast hd
  have hdm : d * (n / d) + n % d = n := Nat.div_add_mod n d
  have hdmq : ((d:ℚ)) * ((n / d : ℕ):ℚ) + ((n % d : ℕ):ℚ) = (n:ℚ) := by
    exact_mod_cast hdm
  have hmodq : ((n % d : ℕ):ℚ) < (d:ℚ) := by exact_mod_cast Nat.mod_lt n hd
  have hmod0 : (0:ℚ) ≤ ((n % d : ℕ):ℚ) := by positivity
  constructor
  · rw [le_div_iff₀ hdq]
    nlinarith
  · rw [div_lt_iff₀ hdq]
    nlinarith

theorem ratFloorNN_spec (q : ℚ) (hq : 0 ≤ q) :
    (ratFloorNN q : ℚ) ≤ q ∧ q < (ratFloorNN q : ℚ) + 1 := by
  have hnum : ((q.num.toNat : ℕ) : ℤ) = q.num :=
    Int.toNat_of_nonneg (Rat.num_nonneg.mpr hq)
  have h := natDivFloorAux q.num.toNat q.den q.den_pos
  have hq1 : ((q.num.toNat : ℕ) : ℚ) = ((q.num : ℤ) : ℚ) := by
    exact_mod_cast congrArg (fun z : ℤ => (z : ℚ)) hnum
  rw [hq1, Rat.num_div_den q] at h
  constructor
  · have h1 := h.1
    rw [ratFloorNN]
    push_cast at h1 ⊢
    exact h1
  · have h2 := h.2
    rw [ratFloorNN]
    push_cast at h2 ⊢
    exact h2

theorem roundHalfEven_nearest (q : ℚ) (hq : 0 ≤ q) :
    |q - (roundHalfEven q : ℚ)| ≤ 1/2 := by
  obtain ⟨h1, h2⟩ := ratFloorNN_spec q hq
  rw [roundHalfEven]
  split
  · rename_i h
    rw [abs_le]
    constructor <;> linarith
  · split
    · rename_i h h3
      rw [abs_le]
      push_cast
      constructor <;> linarith
    · rename_i h h3
      split <;> (rw [abs_le]; push_cast; constructor <;> linarith)

/-- Unfolding of the formatter once the extraction result is known. -/
theorem fetch_eq_of_extract (p : Option DataFrame) (code : String)
    (info : LimitInfo) (h : extract_fund_limit_info p code = some info) :
    fetch_fund_limit_info p code =
      (if info.purchase_status = "暂停申购" then some "暂停"
       else if info.limit_amount > 0 then
         if info.limit_amount ≥ 10000 then
           some ("限" ++ fmtF0 (info.limit_amount / 10000) ++ "万")
         else some ("限" ++ fmtF0 info.limit_amount)
       else some "") := by
  unfold fetch_fund_limit_info
  rw [h]

/-- Claim C1: whenever the lookup succeeds, the formatter splits three
ways on the extracted record: status 暂停申购 gives 暂停, else a positive
limit gives the 限-string, else the empty string. -/
theorem fetch_three_way_split (p : Option DataFrame) (code : String)
    (info : LimitInfo) (h : extract_fund_limit_info p code = some info) :
    fetch_fund_limit_info p code = some
      (if info.purchase_status = "暂停申购" then "暂停"
       else if info.limit_amount > 0 then
         (if info.limit_amount ≥ 10000 then
            "限" ++ fmtF0 (info.limit_amount / 10000) ++ "万"
          else "限" ++ fmtF0 info.limit_amount)
       else "") := by
  rw [fetch_eq_of_extract p code info h]
  by_cases h1 : info.purchase_status = "暂停申购"
  · simp [h1]
  · by_cases h2 : info.limit_amount > 0
    · by_cases h3 : info.limit_amount ≥ 10000 <;> simp [h1, h2, h3]
    · simp [h1, h2]

theorem fetch_three_way_split_witness :
    fetch_fund_limit_info (some dfPause) "160119" = some "暂停" := by
  have h := fetch_three_way_split (some dfPause) "160119"
    ⟨1000, "暂停申购", "QDII", "南方五百"⟩ (by decide)
  exact h.trans (by decide)

/-- Claim C2: a matched record that is not 暂停申购 and has a positive
limit is formatted in units of 10000 with suffix 万 when the amount is at
least 10000, and as the raw amount otherwise, prefixed 限. -/
theorem fetch_formats_positive_amount (p : Option DataFrame) (code : String)
    (info : LimitInfo) (h : extract_fund_limit_info p code = some info)
    (h1 : info.purchase_status ≠ "暂停申购") (h2 : info.limit_amount > 0) :
    fetch_fund_limit_info p code = some
      (if info.limit_amount ≥ 10000 then
         "限" ++ fmtF0 (info.limit_amount / 10000) ++ "万"
       else "限" ++ fmtF0 info.limit_amount) := by
  rw [fetch_eq_of_extract p code info h]
  by_cases h3 : info.limit_amount ≥ 10000 <;> simp [h1, h2, h3]

theorem fetch_formats_positive_amount_witness :
    fetch_fund_limit_info (some (dfAmount "000001" 20000)) "000001" = some "限2万"
    ∧ fetch_fund_limit_info (some (dfAmount "000002" 500)) "000002" = some "限500" := by
  constructor
  · have h := fetch_formats_positive_amount (some (dfAmount "000001" 20000))
      "000001" ⟨20000, "开放申购", "LOF", "测试基金"⟩ (by decide) (by decide) (by norm_num)
    refine h.trans ?_
    norm_num [fmtF0, roundHalfEven, ratFloorNN]
    decide
  · have h := fetch_formats_positive_amount (some (dfAmount "000002" 500))
      "000002" ⟨500, "开放申购", "LOF", "测试基金"⟩ (by decide) (by decide) (by norm_num)
    refine h.trans ?_
    norm_num [fmtF0, roundHalfEven, ratFloorNN]
    decide

/-- Claim C3: the lookup filters by exact code equality first; only when
that filter is empty does it retry with substring containment on the
stripped code, and it returns the first matching row; in particular a
nonempty fallback filter makes the lookup succeed. -/
theorem lookup_exact_then_fallback (df : DataFrame) (code : String) :
    (df.rows.filter (exactMatch code) ≠ [] →
      lookupRow df code = (df.rows.filter (exactMatch code)).head?)
    ∧ (df.rows.filter (exactMatch code) = [] →
      lookupRow df code =
        (df.rows.filter (subMatch (numericPart code))).head?)
    ∧ (df.rows.filter (exactMatch code) = [] →
      df.rows.filter (subMatch (numericPart code)) ≠ [] →
      (lookupRow df code).isSome = true) := by
  refine ⟨?_, ?_, ?_⟩
  · intro h
    simp only [lookupRow]
    rw [if_neg (by simpa [List.isEmpty_iff] using h)]
  · intro h
    simp only [lookupRow]
    rw [if_pos (by simpa [List.isEmpty_iff] using h)]
  · intro h h2
    simp only [lookupRow]
    rw [if_pos (by simpa [List.isEmpty_iff] using h)]
    cases hl : df.rows.filter (subMatch (numericPart code)) with
    | nil => exact absurd hl h2
    | cons a t => simp

theorem lookup_exact_then_fallback_witness :
    (lookupRow dfPause "sh160119").isSome = true :=
  (lookup_exact_then_fallback dfPause "sh160119").2.2 (by decide) (by decide)

/-- Claim C4: a missing table, and a table in which neither the exact
filter nor the fallback finds a row, both make the extraction and the
formatter return none; both functions are total, so no exception can
escape in the embedding. -/
theorem missing_table_or_row_gives_none (code : String) :
    (extract_fund_limit_info none code = none
     ∧ fetch_fund_limit_info none code = none)
    ∧ (∀ df : DataFrame, lookupRow df code = none →
        extract_fund_limit_info (some df) code = none
        ∧ fetch_fund_limit_info (some df) code = none) := by
  constructor
  · exact ⟨rfl, rfl⟩
  · intro df h
    have he : extract_fund_limit_info (some df) code = none := by
      unfold extract_fund_limit_info get_fund_purchase_data
      by_cases hc : df.columns.contains "基金代码" = true <;> simp [hc, h]
    refine ⟨he, ?_⟩
    unfold fetch_fund_limit_info
    rw [he]

theorem missing_table_or_row_gives_none_witness :
    extract_fund_limit_info (some dfNoMatch) "999999" = none
    ∧ fetch_fund_limit_info (some dfNoMatch) "999999" = none :=
  (missing_table_or_row_gives_none "999999").2 dfNoMatch (by decide)

/-- Claim C5: every modelled failure mode — provider failure, missing
required column, no matching row, and a failing float() coercion of the
limit cell — is converted to none by each of the three operations; all
three are total functions of the embedding, so nothing escapes. -/
theorem all_failures_return_none :
    (∀ code : String,
      get_fund_purchase_data none = none
      ∧ extract_fund_limit_info none code = none
      ∧ fetch_fund_limit_info none code = none)
    ∧ (∀ (df : DataFrame) (code : String),
        df.columns.contains "基金代码" = false →
        extract_fund_limit_info (some df) code = none
        ∧ fetch_fund_limit_info (some df) code = none)
    ∧ (∀ (df : DataFrame) (code : String),
        lookupRow df code = none →
        extract_fund_limit_info (some df) code = none
        ∧ fetch_fund_limit_info (some df) code = none)
    ∧ (∀ (df : DataFrame) (code : String) (r : Row),
        lookupRow df code = some r →
        pyTruthy (getField r "日累计限定金额" (.vNum 0)) = true →
        pyFloat (getField r "日累计限定金额" (.vNum 0)) = none →
        extract_fund_limit_info (some df) code = none
        ∧ fetch_fund_limit_info (some df) code = none) := by
  refine ⟨fun code => ⟨rfl, rfl, rfl⟩, ?_, ?_, ?_⟩
  · intro df code hc
    have hc2 : ¬ ("基金代码" ∈ df.columns) := by simpa using hc
    have he : extract_fund_limit_info (some df) code = none := by
      unfold extract_fund_limit_info get_fund_purchase_data
      simp [hc2]
    refine ⟨he, ?_⟩
    unfold fetch_fund_limit_info
    rw [he]
  · intro df code h
    have he : extract_fund_limit_info (some df) code = none := by
      unfold extract_fund_limit_info get_fund_purchase_data
      by_cases hc : df.columns.contains "基金代码" = true <;> simp [hc, h]
    refine ⟨he, ?_⟩
    unfold fetch_fund_limit_info
    rw [he]
  · intro df code r hr ht hf
    have he : extract_fund_limit_info (some df) code = none := by
      unfold extract_fund_limit_info get_fund_purchase_data
      by_cases hc : df.columns.contains "基金代码" = true <;>
        simp [hc, hr, extractFromRow, ht, hf]
    refine ⟨he, ?_⟩
    unfold fetch_fund_limit_info
    rw [he]

theorem all_failures_return_none_witness :
    extract_fund_limit_info (some dfBadLimit) "200300" = none
    ∧ fetch_fund_limit_info (some dfBadLimit) "200300" = none :=
  all_failures_return_none.2.2.2 dfBadLimit "200300" rowBadLimit
    (by decide) (by decide) (by decide)

/-- Reduction of the extraction to the per-field spec functions, provided
the float() coercion of a present truthy limit cell succeeds. -/
theorem extractFromRow_eq_spec (r : Row)
    (hfl : pyTruthy (getField r "日累计限定金额" (.vNum 0)) = true →
      (pyFloat (getField r "日累计限定金额" (.vNum 0))).isSome = true) :
    extractFromRow r = some
      ⟨limitFieldSpec r, strFieldSpec r "申购状态",
       strFieldSpec r "基金类型", strFieldSpec r "基金简称"⟩ := by
  have hs : ∀ col : String,
      (if pyTruthy (getField r col (.vStr "")) then
        pyStr (getField r col (.vStr "")) else "") = strFieldSpec r col := by
    intro col
    unfold getField strFieldSpec
    cases h : getCell r col with
    | none => simp [pyTruthy, pyStr]
    | some v => simp
  have hla : (if pyTruthy (getField r "日累计限定金额" (.vNum 0)) then
      pyFloat (getField r "日累计限定金额" (.vNum 0)) else some 0)
      = some (limitFieldSpec r) := by
    unfold getField limitFieldSpec
    cases h : getCell r "日累计限定金额" with
    | none => simp [pyTruthy]
    | some v =>
      by_cases ht : pyTruthy v = true
      · have hsome := hfl (by simpa [getField, h] using ht)
        rw [getField, h] at hsome
        simp only [Option.getD_some] at hsome ⊢
        obtain ⟨x, hx⟩ := Option.isSome_iff_exists.mp hsome
        simp [ht, hx]
      · simp [ht]
  simp only [extractFromRow]
  rw [hla]
  simp only [Option.some.injEq]
  have h1 := hs "申购状态"
  have h2 := hs "基金类型"
  have h3 := hs "基金简称"
  rw [h1, h2, h3]

/-- Claim C6: the four fields of the matched row are pulled defensively:
a missing or falsy limit cell gives 0 and a missing or falsy string cell
gives the empty string, present truthy values are float- or
str-coerced, and the LimitInfo with exactly those fields is returned
(given that the float coercion does not raise). -/
theorem extract_defensive_fields (df : DataFrame) (code : String) (r : Row)
    (hc : df.columns.contains "基金代码" = true)
    (hr : lookupRow df code = some r)
    (hfl : pyTruthy (getField r "日累计限定金额" (.vNum 0)) = true →
      (pyFloat (getField r "日累计限定金额" (.vNum 0))).isSome = true) :
    extract_fund_limit_info (some df) code = some
      ⟨limitFieldSpec r, strFieldSpec r "申购状态",
       strFieldSpec r "基金类型", strFieldSpec r "基金简称"⟩ := by
  have hc2 : "基金代码" ∈ df.columns := by simpa using hc
  unfold extract_fund_limit_info get_fund_purchase_data
  simp [hc2, hr, extractFromRow_eq_spec r hfl]

theorem extract_defensive_fields_witness :
    extract_fund_limit_info (some dfBare) "300400" = some ⟨0, "", "", ""⟩ := by
  have h := extract_defensive_fields dfBare "300400" rowBare
    (by decide) (by decide) (by decide)
  exact h.trans (by decide)

/-- Claim C7: every defined display string is the empty string, 暂停, or
a 限-prefixed integer numeral, with or without the 万 suffix. -/
theorem display_string_shapes (p : Option DataFrame) (code : String)
    (s : String) (h : fetch_fund_limit_info p code = some s) :
    s = "" ∨ s = "暂停"
    ∨ (∃ n : ℤ, s = "限" ++ toString n ++ "万")
    ∨ (∃ n : ℤ, s = "限" ++ toString n) := by
  cases he : extract_fund_limit_info p code with
  | none => rw [fetch_fund_limit_info, he] at h; exact absurd h (by simp)
  | some info =>
    rw [fetch_eq_of_extract p code info he] at h
    by_cases h1 : info.purchase_status = "暂停申购"
    · rw [if_pos h1] at h
      right; left
      exact (Option.some.injEq _ _ ▸ h.symm :)
    · rw [if_neg h1] at h
      by_cases h2 : info.limit_amount > 0
      · rw [if_pos h2] at h
        by_cases h3 : info.limit_amount ≥ 10000
        · rw [if_pos h3] at h
          right; right; left
          exact ⟨roundHalfEven (info.limit_amount / 10000),
            by simpa [fmtF0] using h.symm⟩
        · rw [if_neg h3] at h
          right; right; right
          exact ⟨roundHalfEven info.limit_amount,
            by simpa [fmtF0] using h.symm⟩
      · rw [if_neg h2] at h
        left
        exact (Option.some.injEq _ _ ▸ h.symm :)

theorem display_string_shapes_witness :
    "暂停" = "" ∨ "暂停" = "暂停"
    ∨ (∃ n : ℤ, "暂停" = "限" ++ toString n ++ "万")
    ∨ (∃ n : ℤ, "暂停" = "限" ++ toString n) :=
  display_string_shapes (some dfPause) "160119" "暂停" (by decide)

/-- Claim C8: for a matched record that is not 暂停申购 with an amount of
at least 10000, the figure before 万 is the amount divided by 10000 and
rounded to a nearest integer by the %.0f format (half-to-even), never
truncated: the displayed figure is within one half of the exact
quotient. -/
theorem wan_digit_rounded_to_nearest (p : Option DataFrame) (code : String)
    (info : LimitInfo) (h : extract_fund_limit_info p code = some info)
    (h1 : info.purchase_status ≠ "暂停申购")
    (h2 : info.limit_amount ≥ 10000) :
    fetch_fund_limit_info p code = some
      ("限" ++ toString (roundHalfEven (info.limit_amount / 10000)) ++ "万")
    ∧ |info.limit_amount / 10000
        - (roundHalfEven (info.limit_amount / 10000) : ℚ)| ≤ 1/2 := by
  have h0 : info.limit_amount > 0 := lt_of_lt_of_le (by norm_num) h2
  constructor
  · rw [fetch_eq_of_extract p code info h, if_neg h1, if_pos h0, if_pos h2]
    rfl
  · exact roundHalfEven_nearest _
      (div_nonneg h0.le (by norm_num))

theorem wan_digit_rounded_to_nearest_witness :
    fetch_fund_limit_info (some (dfAmount "000003" 15000)) "000003" = some "限2万"
    ∧ fetch_fund_limit_info (some (dfAmount "000004" 14000)) "000004" = some "限1万" := by
  constructor
  · have h := (wan_digit_rounded_to_nearest (some (dfAmount "000003" 15000))
      "000003" ⟨15000, "开放申购", "LOF", "测试基金"⟩
      (by decide) (by decide) (by norm_num)).1
    refine h.trans ?_
    norm_num [roundHalfEven, ratFloorNN]
    decide
  · have h := (wan_digit_rounded_to_nearest (some (dfAmount "000004" 14000))
      "000004" ⟨14000, "开放申购", "LOF", "测试基金"⟩
      (by decide) (by decide) (by norm_num)).1
    refine h.trans ?_
    norm_num [roundHalfEven, ratFloorNN]
    decide

/-- Claim C9: a code of at most two characters is not stripped by the
fallback: the lookup coincides with the variant whose fallback pattern is
the full original code. -/
theorem short_code_fallback_unchanged (df : DataFrame) (code : String)
    (h : code.length ≤ 2) :
    lookupRow df code = lookupRowNoStrip df code := by
  have hnp : numericPart code = code := by
    unfold numericPart
    rw [if_neg]
    exact not_lt.mpr h
  unfold lookupRow lookupRowNoStrip
  rw [hnp]

theorem short_code_fallback_unchanged_witness :
    lookupRow dfPause "19" = lookupRowNoStrip dfPause "19" :=
  short_code_fallback_unchanged dfPause "19" (by decide)

/-- Claim C10: the fallback can hand back a different fund: for the query
XY123 the stripped digits 123 occur in the middle (not as a suffix) of the
first row code 512345, there is no exact match, and the extraction
returns the record of that first matching row even though its code
differs from the queried one. -/
theorem fallback_returns_other_fund :
    dfTwoMatches.rows.filter (exactMatch "XY123") = []
    ∧ numericPart "XY123" = "123"
    ∧ charsSub "123".data "512345".data = true
    ∧ List.isSuffixOf "123".data "512345".data = false
    ∧ lookupRow dfTwoMatches "XY123" = some rowMid
    ∧ getCell rowMid "基金代码" = some (.vStr "512345")
    ∧ ("512345" ≠ "XY123")
    ∧ extract_fund_limit_info (some dfTwoMatches) "XY123" =
        some ⟨777, "开放申购", "", "中间匹配"⟩ := by
  refine ⟨by decide, by decide, by decide, by decide, by decide, by decide,
    by decide, by decide⟩

end FundLimit
